import Mathlib

/-!
Shallow embedding of vLLM's KV-connector factory
(`vllm/distributed/kv_transfer/kv_connector/factory.py`) and of the
scoring/rerank serving layer (`vllm/entrypoints/openai/serving_score.py`).

The factory is modelled as explicit state passing over a `FactoryState`
(the class-level `_registry` dict, Python's `sys.modules` import cache,
and an allocation counter used to give each constructed instance a fresh
identity), together with an event trace recording the observable side
effects (module top-level execution, loader invocation, attribute lookup,
logging, construction).
-/

namespace KVF

/-- A Python class object, as far as the factory observes it: its
`__name__` and whether it is a subclass of `KVConnectorBase` (V0 API)
resp. `KVConnectorBase_V1` (V1 API). -/
structure PyClass where
  name : String
  isKVConnectorBase : Bool
  isKVConnectorBase_V1 : Bool
deriving DecidableEq, Repr

/-- A Python module: its attribute table (names bound to classes). -/
structure PyModule where
  attrs : List (String × PyClass)
deriving DecidableEq, Repr

/-- The importable world: module paths bound to module sources.
Immutable — module files do not change while the process runs. -/
structure PyEnv where
  modules : List (String × PyModule)
deriving DecidableEq, Repr

/-- Association-list lookup by string key (Python `dict` lookup /
`name in d`). -/
def assocFind {α : Type} (l : List (String × α)) (n : String) : Option α :=
  match l with
  | [] => none
  | (k, v) :: t => if k = n then some v else assocFind t n

def PyEnv.find (env : PyEnv) (path : String) : Option PyModule :=
  assocFind env.modules path

/-- `getattr(module, a)`: `none` models `AttributeError`. -/
def PyModule.getattr (m : PyModule) (a : String) : Option PyClass :=
  assocFind m.attrs a

/-- Observable side effects of the factory. -/
inductive Event where
  /-- the module's top-level code ran (first import of this path) -/
  | importExec (modulePath : String)
  /-- the loader closure registered under `name` was invoked -/
  | loaderCall (name : String)
  /-- `getattr(module, className)` was evaluated -/
  | getattrExec (modulePath className : String)
  /-- `logger.info("Creating v1 connector with name: %s and engine_id: %s", ...)` -/
  | logInfo (connectorName engineId : String)
  /-- `connector_cls(...)` ran, producing the instance with this identity -/
  | construct (className : String) (instId : Nat)
deriving DecidableEq, Repr

/-- Mutable process state seen by `KVConnectorFactory`. -/
structure FactoryState where
  /-- `KVConnectorFactory._registry`: name bound to the data captured by
  the loader closure, `(module_path, class_name)`. -/
  registry : List (String × String × String)
  /-- `sys.modules`: module paths whose top-level code already ran. -/
  loadedModules : List String
  /-- allocation counter: each constructor call yields a fresh identity. -/
  nextId : Nat
deriving DecidableEq, Repr

/-- Python exceptions the factory can raise. -/
inductive PyError where
  /-- `ValueError(f"Connector '{name}' is already registered.")` -/
  | alreadyRegistered (name : String)
  /-- `ValueError(f"Unsupported connector type: {connector_name}")` -/
  | unsupportedConnector (name : String)
  /-- `ModuleNotFoundError` from `importlib.import_module` -/
  | moduleNotFound (path : String)
  /-- `AttributeError` from `getattr` -/
  | attributeError (path attr : String)
  /-- `ValueError("Attempting to initialize a V0 Connector, but found VLLM_USE_V1=True")` -/
  | v0ButV1Runtime
  /-- `ValueError("Attempting to initialize a V1 Connector, but found VLLM_USE_V1=False")` -/
  | v1ButV0Runtime
  /-- a failed `assert issubclass(...)` -/
  | assertionFailed
deriving DecidableEq, Repr

/-- Outcome of a factory call: returned value or raised exception, the
state after the call, and the trace of side effects it performed. -/
structure Res (α : Type) where
  val : Except PyError α
  st : FactoryState
  trace : List Event
deriving Repr

/-- `KVTransferConfig`, restricted to the fields the factory reads. -/
structure KVTransferConfig where
  kv_connector : String
  kv_connector_module_path : Option String
  engine_id : String
deriving DecidableEq, Repr

/-- `VllmConfig`, restricted to the field the factory reads. -/
structure VllmConfig where
  kv_transfer_config : KVTransferConfig
deriving DecidableEq, Repr

/-- `KVConnectorRole` (v1): scheduler-side or worker-side. -/
inductive KVConnectorRole where
  | scheduler
  | worker
deriving DecidableEq, Repr

/-- `KVConnectorFactory.register_connector(name, module_path, class_name)`:
raise if the name is taken, otherwise store the loader closure (captured
`(module_path, class_name)`). No import happens here. -/
def register_connector (name module_path class_name : String)
    (st : FactoryState) : Res Unit :=
  if (assocFind st.registry name).isSome then
    ⟨.error (.alreadyRegistered name), st, []⟩
  else
    ⟨.ok (), { st with registry := st.registry ++ [(name, (module_path, class_name))] }, []⟩

/-- `importlib.import_module(path)` with the `sys.modules` cache: the
module's top-level code runs only on the first import of `path`. -/
def import_module (env : PyEnv) (path : String) (st : FactoryState) :
    Res PyModule :=
  match env.find path with
  | none => ⟨.error (.moduleNotFound path), st, []⟩
  | some m =>
    if path ∈ st.loadedModules then ⟨.ok m, st, []⟩
    else ⟨.ok m, { st with loadedModules := path :: st.loadedModules }, [.importExec path]⟩

/-- The loader closure built inside `register_connector`:
`import_module(module_path)` then `getattr(module, class_name)`. -/
def loader (env : PyEnv) (module_path class_name : String)
    (st : FactoryState) : Res PyClass :=
  match import_module env module_path st with
  | ⟨.error e, st1, tr⟩ => ⟨.error e, st1, tr⟩
  | ⟨.ok m, st1, tr⟩ =>
    match m.getattr class_name with
    | none => ⟨.error (.attributeError module_path class_name), st1,
               tr ++ [.getattrExec module_path class_name]⟩
    | some c => ⟨.ok c, st1, tr ++ [.getattrExec module_path class_name]⟩

/-- `KVConnectorFactory.get_connector_class(kv_transfer_config)`: look the
name up in the registry and run its loader; on a miss fall back to
importing `kv_connector_module_path` and taking the attribute named by the
connector name; raise `Unsupported connector type` when no fallback path
is configured. -/
def get_connector_class (env : PyEnv) (cfg : KVTransferConfig)
    (st : FactoryState) : Res PyClass :=
  let connector_name := cfg.kv_connector
  match assocFind st.registry connector_name with
  | some (module_path, class_name) =>
    let r := loader env module_path class_name st
    ⟨r.val, r.st, .loaderCall connector_name :: r.trace⟩
  | none =>
    match cfg.kv_connector_module_path with
    | none => ⟨.error (.unsupportedConnector connector_name), st, []⟩
    | some p =>
      match import_module env p st with
      | ⟨.error e, st1, tr⟩ => ⟨.error e, st1, tr⟩
      | ⟨.ok m, st1, tr⟩ =>
        match m.getattr connector_name with
        | none => ⟨.error (.attributeError p connector_name), st1,
                   tr ++ [.getattrExec p connector_name]⟩
        | some c => ⟨.ok c, st1, tr ++ [.getattrExec p connector_name]⟩

/-- A V0 connector instance: `connector_cls(rank, local_rank, config)`.
`instId` is the allocation identity distinguishing separate constructor
calls. -/
structure ConnectorInstanceV0 where
  instId : Nat
  cls : PyClass
  rank : Int
  local_rank : Int
  config : VllmConfig
deriving DecidableEq, Repr

/-- A V1 connector instance: `connector_cls(config, role)`. -/
structure ConnectorInstanceV1 where
  instId : Nat
  cls : PyClass
  config : VllmConfig
  role : KVConnectorRole
deriving DecidableEq, Repr

/-- `KVConnectorFactory.create_connector_v0(rank, local_rank, config)`;
`vllm_use_v1` is `envs.VLLM_USE_V1`. -/
def create_connector_v0 (env : PyEnv) (vllm_use_v1 : Bool)
    (rank local_rank : Int) (config : VllmConfig) (st : FactoryState) :
    Res ConnectorInstanceV0 :=
  if vllm_use_v1 then ⟨.error .v0ButV1Runtime, st, []⟩
  else
    match get_connector_class env config.kv_transfer_config st with
    | ⟨.error e, st1, tr⟩ => ⟨.error e, st1, tr⟩
    | ⟨.ok c, st1, tr⟩ =>
      if c.isKVConnectorBase then
        ⟨.ok ⟨st1.nextId, c, rank, local_rank, config⟩,
         { st1 with nextId := st1.nextId + 1 },
         tr ++ [.construct c.name st1.nextId]⟩
      else ⟨.error .assertionFailed, st1, tr⟩

/-- `KVConnectorFactory.create_connector_v1(config, role)`: check
`envs.VLLM_USE_V1`, resolve the class, assert it subclasses
`KVConnectorBase_V1`, log the class `__name__` and engine id, then
construct `connector_cls(config, role)`. -/
def create_connector_v1 (env : PyEnv) (vllm_use_v1 : Bool)
    (config : VllmConfig) (role : KVConnectorRole) (st : FactoryState) :
    Res ConnectorInstanceV1 :=
  if !vllm_use_v1 then ⟨.error .v1ButV0Runtime, st, []⟩
  else
    let ktc := config.kv_transfer_config
    match get_connector_class env ktc st with
    | ⟨.error e, st1, tr⟩ => ⟨.error e, st1, tr⟩
    | ⟨.ok c, st1, tr⟩ =>
      if c.isKVConnectorBase_V1 then
        ⟨.ok ⟨st1.nextId, c, config, role⟩,
         { st1 with nextId := st1.nextId + 1 },
         tr ++ [.logInfo c.name ktc.engine_id, .construct c.name st1.nextId]⟩
      else ⟨.error .assertionFailed, st1, tr⟩

end KVF

/-!
Embedding of `vllm/entrypoints/openai/serving_score.py`.

The serving layer's interactions with its collaborators are modelled as
a trace of `SCall` events; the tokenizer, input validation, and the
engine's pooling results are abstract functions bundled in `ModelEnv`
(they live outside this file's sources). The multimodal preprocessing
branch of `_cross_encoding_score` defers to `get_score_prompt`, which is
outside this snapshot; the model covers the text branches.
-/

namespace Scoring

/-- `TokensPrompt` as built by the scoring paths: token ids plus the
optional `token_type_ids` carried in the cross-encoder path. -/
structure TokensPrompt where
  prompt_token_ids : List Nat
  token_type_ids : Option (List Nat)
deriving DecidableEq, Repr

/-- One interaction of `ServingScores` with a collaborator. -/
inductive SCall where
  /-- `engine_client.get_tokenizer(lora_request)` (setup, not inference) -/
  | getTokenizer (lora : Option String)
  /-- `tokenizer(text)` run in the serving process's executor -/
  | tokenize (text : String)
  /-- `tokenizer(text=t1, text_pair=t2)` run in the serving process's executor -/
  | tokenizePair (text text_pair : String)
  /-- `self._log_inputs(request_id_item, prompt, ...)` -/
  | logInputs (request_id : String) (prompt : String)
  /-- `engine_client.encode(prompt, pooling_params, request_id, lora_request=...,
  trace_headers=..., priority=...)` -/
  | encode (prompt : TokensPrompt) (pooling_params : String) (request_id : String)
      (lora : Option String) (trace_headers : Option (List (String × String)))
      (priority : Int)
  /-- a call into the KV-connector subsystem (never emitted by this layer) -/
  | kvConnector (op : String)
deriving DecidableEq, Repr

/-- Calls landing on the `EngineClient` interface. -/
def SCall.isEngineClientCall : SCall → Bool
  | .getTokenizer _ => true
  | .encode _ _ _ _ _ _ => true
  | _ => false

def SCall.isEncode : SCall → Bool
  | .encode _ _ _ _ _ _ => true
  | _ => false

def SCall.isKvConnectorOp : SCall → Bool
  | .kvConnector _ => true
  | _ => false

/-- The abstract collaborators of the serving layer: tokenizer, input
validation, engine pooling results, and model-config flags. -/
structure ModelEnv where
  /-- `tokenizer(t)["input_ids"]` -/
  tok : String → List Nat
  /-- `tokenizer(t)` `.get("token_type_ids")` -/
  tokTypeIds : String → Option (List Nat)
  /-- `tokenizer(text=t1, text_pair=t2)`: `input_ids` and `token_type_ids` -/
  tokPair : String → String → List Nat × Option (List Nat)
  /-- `self._validate_input(request, ids, text)["prompt_token_ids"]` -/
  validate : List Nat → List Nat
  /-- pooled embedding returned by the engine for a prompt -/
  embed : TokensPrompt → Int
  /-- pooled cross-encoder score returned by the engine for a prompt -/
  score : TokensPrompt → Int
  /-- the similarity kernel applied per pair inside `_cosine_similarity` -/
  cos : Int → Int → Int
  /-- `model_config.use_pad_token` -/
  use_pad_token : Bool
  /-- `tokenizer.sep_token`; `""` models a falsy sep token -/
  sep_token : String

/-- Python `list * n`: `n` concatenated copies. -/
def pyListMul {α : Type} (l : List α) (n : Nat) : List α :=
  (List.replicate n l).flatten

/-- Modelled from the spec: `_cosine_similarity` (defined in
`vllm/entrypoints/score_utils.py`, not part of this snapshot) pairs the
two embedding lists elementwise, one similarity score per pair. -/
def cosineSimilarity (cos : Int → Int → Int) (e1 e2 : List Int) : List Int :=
  List.zipWith cos e1 e2

/-- The per-prompt scheduling loop shared by `_embedding_score`
(lines 93-110) and `_cross_encoding_score` (lines 252-269): for prompt
`i`, `_log_inputs(f"{request_id}-{i}", ...)` then
`engine_client.encode(prompt, pooling_params, f"{request_id}-{i}",
lora_request, trace_headers, priority)`. -/
def scheduleCalls (engine_prompts : List TokensPrompt)
    (request_prompts : List String) (pooling_params request_id : String)
    (lora : Option String) (trace_headers : Option (List (String × String)))
    (priority : Int) : List SCall :=
  engine_prompts.enum.flatMap (fun p =>
    [SCall.logInputs (request_id ++ "-" ++ toString p.1) (request_prompts.getD p.1 ""),
     SCall.encode p.2 pooling_params (request_id ++ "-" ++ toString p.1)
       lora trace_headers priority])

/-- The engine prompt `_embedding_score` builds for one input text:
tokenize, validate, wrap in `TokensPrompt(prompt_token_ids=...)`. -/
def embeddingPromptOf (me : ModelEnv) (t : String) : TokensPrompt :=
  ⟨me.validate (me.tok t), none⟩

/-- `ServingScores._embedding_score` (text inputs): returns the trace of
collaborator calls and the final score batch. -/
def embedding_score (me : ModelEnv) (pooling_params request_id : String)
    (lora : Option String) (trace_headers : Option (List (String × String)))
    (priority : Int) (texts_1 texts_2 : List String) :
    List SCall × List Int :=
  let input_texts := texts_1 ++ texts_2
  let engine_prompts := input_texts.map (embeddingPromptOf me)
  let embeddings := engine_prompts.map me.embed
  let emb_texts_1 := embeddings.take texts_1.length
  let emb_texts_2 := embeddings.drop texts_1.length
  let emb_bcast := if emb_texts_1.length = 1
    then pyListMul emb_texts_1 emb_texts_2.length else emb_texts_1
  (input_texts.map SCall.tokenize
     ++ scheduleCalls engine_prompts input_texts pooling_params request_id
          lora trace_headers priority,
   cosineSimilarity me.cos emb_bcast emb_texts_2)

/-- The separator used for the logged request prompt in
`_cross_encoding_score`: `tokenizer.sep_token if (tokenizer.sep_token and
use_pad_token) else ''`. -/
def crossSep (me : ModelEnv) : String :=
  if me.sep_token ≠ "" ∧ me.use_pad_token then me.sep_token else ""

/-- The engine prompt `_cross_encoding_score` builds for one pair
(non-multimodal branches): pad-token models tokenize the pair, reranker
models tokenize the concatenation. -/
def crossPromptOf (me : ModelEnv) (t1 t2 : String) : TokensPrompt :=
  if me.use_pad_token then
    ⟨me.validate (me.tokPair t1 t2).1, (me.tokPair t1 t2).2⟩
  else
    ⟨me.validate (me.tok (t1 ++ t2)), me.tokTypeIds (t1 ++ t2)⟩

/-- `ServingScores._cross_encoding_score` (text inputs): trace of
collaborator calls and the final score batch. -/
def cross_encoding_score (me : ModelEnv) (pooling_params request_id : String)
    (lora : Option String) (trace_headers : Option (List (String × String)))
    (priority : Int) (data_1 data_2 : List String) :
    List SCall × List Int :=
  let data_1b := if data_1.length = 1 then pyListMul data_1 data_2.length else data_1
  let input_pairs := data_1b.zip data_2
  let engine_prompts := input_pairs.map (fun p => crossPromptOf me p.1 p.2)
  let request_prompts := input_pairs.map (fun p => p.1 ++ crossSep me ++ p.2)
  (input_pairs.map (fun p =>
      if me.use_pad_token then SCall.tokenizePair p.1 p.2
      else SCall.tokenize (p.1 ++ p.2))
     ++ scheduleCalls engine_prompts request_prompts pooling_params request_id
          lora trace_headers priority,
   engine_prompts.map me.score)

/-- `ServingScores._run_scoring` after input normalization: fetch the
tokenizer from the engine client, then dispatch on
`model_config.is_cross_encoder`. -/
def run_scoring (me : ModelEnv) (is_cross_encoder : Bool)
    (pooling_params request_id : String) (lora : Option String)
    (trace_headers : Option (List (String × String))) (priority : Int)
    (data_1 data_2 : List String) : List SCall × List Int :=
  let r := if is_cross_encoder then
      cross_encoding_score me pooling_params request_id lora trace_headers
        priority data_1 data_2
    else
      embedding_score me pooling_params request_id lora trace_headers
        priority data_1 data_2
  (SCall.getTokenizer lora :: r.1, r.2)

/-- Number of `encode` calls in a trace. -/
def encodeCount (tr : List SCall) : Nat :=
  (tr.filter (fun c => c.isEncode)).length

/-- The per-item view of a `PoolingRequestOutput` that
`request_output_to_rerank_response` reads: the prompt's token ids and the
scalar score extracted via `ScoringRequestOutput.from_base`. -/
structure PoolingRequestOutput where
  prompt_token_ids : List Nat
  score : Int
deriving DecidableEq, Repr

/-- One entry of a `RerankResponse`. -/
structure RerankResult where
  index : Nat
  document : String
  relevance_score : Int
deriving DecidableEq, Repr

/-- `RerankResponse`, restricted to the fields the claims are about. -/
structure RerankResponse where
  results : List RerankResult
  total_tokens : Nat
deriving DecidableEq, Repr

/-- The comparison realised by Python's stable
`results.sort(key=lambda x: x.relevance_score, reverse=True)`. -/
def rerankLe (a b : RerankResult) : Bool :=
  decide (b.relevance_score ≤ a.relevance_score)

/-- The result-building loop of `request_output_to_rerank_response`:
`RerankResult(index=idx, document=documents[idx],
relevance_score=...outputs.score)` for each output, in input order. -/
def rerankItems (documents : List String)
    (final_res_batch : List PoolingRequestOutput) : List RerankResult :=
  final_res_batch.enum.map (fun p =>
    RerankResult.mk p.1 (documents.getD p.1 "") p.2.score)

/-- `ServingScores.request_output_to_rerank_response`: build one result
per output with `index=idx` in input order, sum the prompt token counts,
sort by relevance score descending, then truncate to `top_n` when
`top_n < len(documents)`. `do_rerank` only passes a nonnegative `top_n`,
so Python's `results[:top_n]` is `take top_n.toNat`. -/
def request_output_to_rerank_response
    (final_res_batch : List PoolingRequestOutput) (documents : List String)
    (top_n : Int) : RerankResponse :=
  let results := rerankItems documents final_res_batch
  let num_prompt_tokens := (final_res_batch.map (fun r => r.prompt_token_ids.length)).sum
  let sorted := results.mergeSort rerankLe
  let truncated := if top_n < (documents.length : Int)
    then sorted.take top_n.toNat else sorted
  ⟨truncated, num_prompt_tokens⟩

/-- `do_rerank`'s `top_n` defaulting:
`request.top_n if request.top_n > 0 else len(documents)`. -/
def rerankTopN (request_top_n : Int) (numDocs : Nat) : Int :=
  if request_top_n > 0 then request_top_n else numDocs

/-- The response `do_rerank` hands back on success, as a function of the
request's `top_n`, the documents, and the scored batch. -/
def do_rerank_response (request_top_n : Int) (documents : List String)
    (final_res_batch : List PoolingRequestOutput) : RerankResponse :=
  request_output_to_rerank_response final_res_batch documents
    (rerankTopN request_top_n documents.length)

/-- A concrete model environment used to instantiate the theorems. -/
def meFix : ModelEnv :=
  ⟨fun t => [t.length], fun _ => none, fun t1 t2 => ([t1.length, t2.length], some [0, 1]),
   id, fun p => (p.prompt_token_ids.sum : Int), fun p => (p.prompt_token_ids.sum : Int),
   fun a b => a * b, true, "#"⟩

end Scoring

namespace KVF

theorem assocFind_append_of_none {α : Type} {l₁ : List (String × α)}
    (l₂ : List (String × α)) {n : String} (h : assocFind l₁ n = none) :
    assocFind (l₁ ++ l₂) n = assocFind l₂ n := by
  induction l₁ with
  | nil => simp
  | cons hd tl ih =>
    obtain ⟨k, v⟩ := hd
    by_cases hk : k = n
    · simp [assocFind, hk] at h
    · simp only [assocFind, hk, if_neg hk, List.cons_append] at h ⊢
      exact ih h

theorem assocFind_append_of_some {α : Type} {l₁ : List (String × α)}
    (l₂ : List (String × α)) {n : String} {v : α}
    (h : assocFind l₁ n = some v) : assocFind (l₁ ++ l₂) n = some v := by
  induction l₁ with
  | nil => simp [assocFind] at h
  | cons hd tl ih =>
    obtain ⟨k, w⟩ := hd
    by_cases hk : k = n
    · simp only [assocFind, if_pos hk] at h
      simp [assocFind, hk, h]
    · simp only [assocFind, if_neg hk, List.cons_append] at h ⊢
      exact ih h

/-- Claim C1: registering a name that is already in the registry raises
`ValueError("... is already registered.")` and leaves the state untouched,
while registering two distinct fresh names succeeds twice, each call
adding its own `(module_path, class_name)` entry. -/
theorem register_duplicate_fails_distinct_succeed
    (st st0 : FactoryState) (name mp cn n1 mp1 cn1 n2 mp2 cn2 : String)
    (hdup : (assocFind st.registry name).isSome = true)
    (hne : n1 ≠ n2)
    (h1 : assocFind st0.registry n1 = none)
    (h2 : assocFind st0.registry n2 = none) :
    register_connector name mp cn st = ⟨.error (.alreadyRegistered name), st, []⟩
    ∧ ∃ st1 st2,
        register_connector n1 mp1 cn1 st0 = ⟨.ok (), st1, []⟩
        ∧ register_connector n2 mp2 cn2 st1 = ⟨.ok (), st2, []⟩
        ∧ assocFind st2.registry n1 = some (mp1, cn1)
        ∧ assocFind st2.registry n2 = some (mp2, cn2)
        ∧ st2.registry = st0.registry ++ [(n1, (mp1, cn1))] ++ [(n2, (mp2, cn2))] := by
  refine ⟨by simp [register_connector, hdup], ?_⟩
  have h1' : assocFind (st0.registry ++ [(n1, (mp1, cn1))]) n1 = some (mp1, cn1) := by
    rw [assocFind_append_of_none _ h1]; simp [assocFind]
  have h2' : assocFind (st0.registry ++ [(n1, (mp1, cn1))]) n2 = none := by
    rw [assocFind_append_of_none _ h2]; simp [assocFind, hne]
  refine ⟨{ st0 with registry := st0.registry ++ [(n1, (mp1, cn1))] },
          { st0 with registry := st0.registry ++ [(n1, (mp1, cn1))] ++ [(n2, (mp2, cn2))] },
          by simp [register_connector, h1], by simp [register_connector, h2'], ?_, ?_, rfl⟩
  · exact assocFind_append_of_some _ h1'
  · rw [assocFind_append_of_none _ h2']; simp [assocFind]

theorem register_duplicate_fails_distinct_succeed_witness :
    let stR : FactoryState := ⟨[("NixlConnector", ("mod.v1", "NixlConnector"))], [], 0⟩
    register_connector "NixlConnector" "m" "C" stR
      = ⟨.error (.alreadyRegistered "NixlConnector"), stR, []⟩
    ∧ ∃ st1 st2,
        register_connector "SharedStorageConnector" "mod.s" "SharedStorageConnector" ⟨[], [], 0⟩
          = ⟨.ok (), st1, []⟩
        ∧ register_connector "MultiConnector" "mod.m" "MultiConnector" st1 = ⟨.ok (), st2, []⟩
        ∧ assocFind st2.registry "SharedStorageConnector" = some ("mod.s", "SharedStorageConnector")
        ∧ assocFind st2.registry "MultiConnector" = some ("mod.m", "MultiConnector")
        ∧ st2.registry = [] ++ [("SharedStorageConnector", ("mod.s", "SharedStorageConnector"))]
            ++ [("MultiConnector", ("mod.m", "MultiConnector"))] :=
  register_duplicate_fails_distinct_succeed
    ⟨[("NixlConnector", ("mod.v1", "NixlConnector"))], [], 0⟩ ⟨[], [], 0⟩
    "NixlConnector" "m" "C"
    "SharedStorageConnector" "mod.s" "SharedStorageConnector"
    "MultiConnector" "mod.m" "MultiConnector"
    (by decide) (by decide) (by decide) (by decide)

theorem import_module_ne_unsupported (env : PyEnv) (path : String)
    (st : FactoryState) (n : String) :
    (import_module env path st).val ≠ .error (.unsupportedConnector n) := by
  unfold import_module
  rcases hm : env.find path with _ | m
  · simp
  · by_cases hmem : path ∈ st.loadedModules <;> simp [hmem]

theorem loader_ne_unsupported (env : PyEnv) (mp cn : String)
    (st : FactoryState) (n : String) :
    (loader env mp cn st).val ≠ .error (.unsupportedConnector n) := by
  unfold loader
  rcases him : import_module env mp st with ⟨v, st1, tr⟩
  rcases v with e | m
  · have := import_module_ne_unsupported env mp st n
    rw [him] at this
    simpa using this
  · rcases hc : m.getattr cn with _ | c <;> simp [hc]

/-- Claim C2: `get_connector_class` returns exactly what the registered
loader produces when the name is registered; on a miss it falls back to
importing `kv_connector_module_path` and taking the attribute named by
the connector name; and it raises `Unsupported connector type` precisely
when the name is unregistered and no module path is configured. -/
theorem get_connector_class_spec (env : PyEnv) (cfg : KVTransferConfig)
    (st : FactoryState) :
    (∀ mp cn, assocFind st.registry cfg.kv_connector = some (mp, cn) →
       get_connector_class env cfg st =
         ⟨(loader env mp cn st).val, (loader env mp cn st).st,
          .loaderCall cfg.kv_connector :: (loader env mp cn st).trace⟩)
  ∧ (∀ p, assocFind st.registry cfg.kv_connector = none →
       cfg.kv_connector_module_path = some p →
       (∀ m c, env.find p = some m → m.getattr cfg.kv_connector = some c →
          (get_connector_class env cfg st).val = .ok c)
       ∧ (env.find p = none →
          (get_connector_class env cfg st).val = .error (.moduleNotFound p)))
  ∧ ((get_connector_class env cfg st).val
       = .error (.unsupportedConnector cfg.kv_connector)
     ↔ assocFind st.registry cfg.kv_connector = none
       ∧ cfg.kv_connector_module_path = none) := by
  refine ⟨?_, ?_, ?_, ?_⟩
  · intro mp cn h
    simp [get_connector_class, h]
  · intro p hmiss hpath
    constructor
    · intro m c hm hc
      have him : ∃ st1 tr, import_module env p st = ⟨.ok m, st1, tr⟩ := by
        by_cases hmem : p ∈ st.loadedModules
        · exact ⟨st, [], by simp [import_module, hm, hmem]⟩
        · exact ⟨{ st with loadedModules := p :: st.loadedModules },
                 [.importExec p], by simp [import_module, hm, hmem]⟩
      obtain ⟨st1, tr, him⟩ := him
      simp [get_connector_class, hmiss, hpath, him, hc]
    · intro hm
      simp [get_connector_class, hmiss, hpath, import_module, hm]
  · intro hval
    simp only [get_connector_class] at hval
    rcases hreg : assocFind st.registry cfg.kv_connector with _ | ⟨mp, cn⟩ <;>
      rw [hreg] at hval
    · rcases hpath : cfg.kv_connector_module_path with _ | p <;>
        rw [hpath] at hval
      · exact ⟨rfl, rfl⟩
      · exfalso
        simp only at hval
        rcases him : import_module env p st with ⟨v, st1, tr⟩
        rw [him] at hval
        rcases v with e | m
        · simp only at hval
          have := import_module_ne_unsupported env p st cfg.kv_connector
          rw [him] at this
          simp at hval
          exact this (by simp [hval])
        · simp only at hval
          rcases hc : m.getattr cfg.kv_connector with _ | c <;>
            rw [hc] at hval <;> simp at hval
    · exfalso
      simp only at hval
      exact loader_ne_unsupported env mp cn st cfg.kv_connector hval
  · rintro ⟨hreg, hpath⟩
    simp [get_connector_class, hreg, hpath]

theorem get_connector_class_spec_witness :
    let stR : FactoryState :=
      ⟨[("NixlConnector", ("mod.nixl", "NixlConnector"))], [], 0⟩
    let env : PyEnv := ⟨[("mod.nixl", ⟨[("NixlConnector", ⟨"NixlConnector", false, true⟩)]⟩)]⟩
    let cfg : KVTransferConfig := ⟨"NixlConnector", none, "eng0"⟩
    (assocFind stR.registry cfg.kv_connector = some ("mod.nixl", "NixlConnector"))
    ∧ get_connector_class env cfg stR =
        ⟨(loader env "mod.nixl" "NixlConnector" stR).val,
         (loader env "mod.nixl" "NixlConnector" stR).st,
         .loaderCall cfg.kv_connector
           :: (loader env "mod.nixl" "NixlConnector" stR).trace⟩ :=
  ⟨by decide, (get_connector_class_spec _ _ _).1 _ _ (by decide)⟩

/-- Claim C3: a version mismatch between the runtime flag and the
connector always fails: `create_connector_v0` raises when
`VLLM_USE_V1` is set; `create_connector_v1` raises when it is unset; and
`create_connector_v1` fails its `issubclass(..., KVConnectorBase_V1)`
assertion when the resolved class does not support the V1 API. -/
theorem create_version_mismatch_fails (env : PyEnv) (rank lr : Int)
    (config : VllmConfig) (role : KVConnectorRole) (st : FactoryState)
    (c : PyClass) :
    create_connector_v0 env true rank lr config st
      = ⟨.error .v0ButV1Runtime, st, []⟩
    ∧ create_connector_v1 env false config role st
      = ⟨.error .v1ButV0Runtime, st, []⟩
    ∧ ((get_connector_class env config.kv_transfer_config st).val = .ok c →
       c.isKVConnectorBase_V1 = false →
       create_connector_v1 env true config role st
         = ⟨.error .assertionFailed,
            (get_connector_class env config.kv_transfer_config st).st,
            (get_connector_class env config.kv_transfer_config st).trace⟩) := by
  refine ⟨by simp [create_connector_v0], by simp [create_connector_v1], ?_⟩
  intro hok hv1
  unfold create_connector_v1
  rcases hg : get_connector_class env config.kv_transfer_config st with ⟨v, st1, tr⟩
  rw [hg] at hok
  simp only at hok
  subst hok
  simp only [hg]
  simp [hv1]

theorem create_version_mismatch_fails_witness :
    let stR : FactoryState :=
      ⟨[("PyNcclConnector", ("mod.simple", "SimpleConnector"))], [], 0⟩
    let env : PyEnv :=
      ⟨[("mod.simple", ⟨[("SimpleConnector", ⟨"SimpleConnector", true, false⟩)]⟩)]⟩
    let cfg : VllmConfig := ⟨⟨"PyNcclConnector", none, "eng0"⟩⟩
    create_connector_v0 env true 0 0 cfg ⟨[], [], 0⟩
      = ⟨.error .v0ButV1Runtime, ⟨[], [], 0⟩, []⟩
    ∧ create_connector_v1 env false cfg .scheduler ⟨[], [], 0⟩
      = ⟨.error .v1ButV0Runtime, ⟨[], [], 0⟩, []⟩
    ∧ create_connector_v1 env true cfg .scheduler stR
      = ⟨.error .assertionFailed,
         (get_connector_class env cfg.kv_transfer_config stR).st,
         (get_connector_class env cfg.kv_transfer_config stR).trace⟩ :=
  ⟨(create_version_mismatch_fails _ 0 0 _ .scheduler _
      ⟨"SimpleConnector", true, false⟩).1,
   (create_version_mismatch_fails _ 0 0 _ .scheduler _
      ⟨"SimpleConnector", true, false⟩).2.1,
   (create_version_mismatch_fails _ 0 0 _ .scheduler _
      ⟨"SimpleConnector", true, false⟩).2.2 (by rfl) (by rfl)⟩

theorem loader_ok_spec (env : PyEnv) (mp cn : String) (st : FactoryState)
    (m : PyModule) (Y : PyClass)
    (hm : env.find mp = some m) (hc : m.getattr cn = some Y) :
    ∃ st1 tr, loader env mp cn st = ⟨.ok Y, st1, tr⟩
      ∧ st1.registry = st.registry ∧ st1.nextId = st.nextId
      ∧ mp ∈ st1.loadedModules
      ∧ (if mp ∈ st.loadedModules then st1 = st ∧ tr = [.getattrExec mp cn]
         else st1 = { st with loadedModules := mp :: st.loadedModules }
              ∧ tr = [.importExec mp, .getattrExec mp cn]) := by
  by_cases hmem : mp ∈ st.loadedModules
  · exact ⟨st, [.getattrExec mp cn],
      by simp [loader, import_module, hm, hmem, hc], rfl, rfl, hmem,
      by simp [hmem]⟩
  · exact ⟨{ st with loadedModules := mp :: st.loadedModules },
      [.importExec mp, .getattrExec mp cn],
      by simp [loader, import_module, hm, hmem, hc], rfl, rfl, by simp,
      by simp [hmem]⟩

theorem get_connector_class_ok_spec (env : PyEnv) (cfg : KVTransferConfig)
    (st : FactoryState) (mp cn : String) (m : PyModule) (Y : PyClass)
    (hreg : assocFind st.registry cfg.kv_connector = some (mp, cn))
    (hm : env.find mp = some m) (hc : m.getattr cn = some Y) :
    ∃ st1 tr, get_connector_class env cfg st = ⟨.ok Y, st1, tr⟩
      ∧ st1.registry = st.registry ∧ st1.nextId = st.nextId
      ∧ mp ∈ st1.loadedModules
      ∧ (if mp ∈ st.loadedModules
         then st1 = st ∧ tr = [.loaderCall cfg.kv_connector, .getattrExec mp cn]
         else st1 = { st with loadedModules := mp :: st.loadedModules }
              ∧ tr = [.loaderCall cfg.kv_connector, .importExec mp,
                      .getattrExec mp cn]) := by
  obtain ⟨st1, tr, hl, hr, hn, hmem, hcase⟩ := loader_ok_spec env mp cn st m Y hm hc
  refine ⟨st1, .loaderCall cfg.kv_connector :: tr,
    by simp [get_connector_class, hreg, hl], hr, hn, hmem, ?_⟩
  by_cases hmem0 : mp ∈ st.loadedModules <;> simp [hmem0] at hcase ⊢ <;>
    exact ⟨hcase.1, by rw [hcase.2]⟩

/-- Any successful `create_connector_v1` call returns an instance whose
class passed the `KVConnectorBase_V1` subclass assertion, built as
`connector_cls(config, role)`, with the runtime flag set. -/
theorem create_connector_v1_ok_shape (env : PyEnv) (u : Bool)
    (config : VllmConfig) (role : KVConnectorRole) (st : FactoryState)
    (inst : ConnectorInstanceV1) (st2 : FactoryState) (tr : List Event)
    (h : create_connector_v1 env u config role st = ⟨.ok inst, st2, tr⟩) :
    u = true
    ∧ inst.cls.isKVConnectorBase_V1 = true
    ∧ inst.config = config ∧ inst.role = role
    ∧ ∃ st1 tr1, get_connector_class env config.kv_transfer_config st
        = ⟨.ok inst.cls, st1, tr1⟩
      ∧ inst.instId = st1.nextId
      ∧ st2 = { st1 with nextId := st1.nextId + 1 }
      ∧ tr = tr1 ++ [.logInfo inst.cls.name config.kv_transfer_config.engine_id,
                     .construct inst.cls.name inst.instId] := by
  cases u with
  | false => simp [create_connector_v1] at h
  | true =>
    simp only [create_connector_v1] at h
    rcases hg : get_connector_class env config.kv_transfer_config st with ⟨v, st1, tr1⟩
    rw [hg] at h
    rcases v with e | c
    · simp at h
    · by_cases hv : c.isKVConnectorBase_V1 = true
      · simp only [Bool.not_true, Bool.false_eq_true, if_false, hv, if_true] at h
        obtain ⟨h1, h2, h3⟩ := Res.mk.inj h
        have h1' := Except.ok.inj h1
        subst h1' h2 h3
        exact ⟨rfl, hv, rfl, rfl, st1, tr1, rfl, rfl, rfl, rfl⟩
      · simp [hv] at h

/-- Claim C4: with a registered name resolving to class `Y` that
supports V1, `create_connector_v1` returns an instance of `Y` built with
exactly `(config, role)`; a second call with the same config yields a
second, distinct instance from a fresh constructor call, and every
successful call's instance passed the `KVConnectorBase_V1` contract
check for the role it was requested with. -/
theorem create_v1_fresh_instances (env : PyEnv) (config : VllmConfig)
    (role : KVConnectorRole) (st : FactoryState) (mp cn : String)
    (m : PyModule) (Y : PyClass)
    (hreg : assocFind st.registry config.kv_transfer_config.kv_connector
              = some (mp, cn))
    (hm : env.find mp = some m) (hc : m.getattr cn = some Y)
    (hv1 : Y.isKVConnectorBase_V1 = true) :
    (∀ u inst st2 tr,
       create_connector_v1 env u config role st = ⟨.ok inst, st2, tr⟩ →
       inst.cls.isKVConnectorBase_V1 = true ∧ inst.config = config
         ∧ inst.role = role)
    ∧ ∃ st1 tr1 st2 tr2,
        create_connector_v1 env true config role st
          = ⟨.ok ⟨st.nextId, Y, config, role⟩, st1, tr1⟩
        ∧ create_connector_v1 env true config role st1
          = ⟨.ok ⟨st.nextId + 1, Y, config, role⟩, st2, tr2⟩
        ∧ (ConnectorInstanceV1.mk st.nextId Y config role)
            ≠ ⟨st.nextId + 1, Y, config, role⟩
        ∧ Event.construct Y.name st.nextId ∈ tr1
        ∧ Event.construct Y.name (st.nextId + 1) ∈ tr2 := by
  constructor
  · intro u inst st2 tr h
    obtain ⟨_, h1, h2, h3, _⟩ := create_connector_v1_ok_shape env u config role st inst st2 tr h
    exact ⟨h1, h2, h3⟩
  · obtain ⟨stg, trg, hg, hr, hn, hmem, _⟩ :=
      get_connector_class_ok_spec env config.kv_transfer_config st mp cn m Y hreg hm hc
    have hcall1 : create_connector_v1 env true config role st
        = ⟨.ok ⟨st.nextId, Y, config, role⟩, { stg with nextId := stg.nextId + 1 },
           trg ++ [.logInfo Y.name config.kv_transfer_config.engine_id,
                   .construct Y.name st.nextId]⟩ := by
      simp [create_connector_v1, hg, hv1, hn]
    have hreg1 : assocFind ({ stg with nextId := stg.nextId + 1 } : FactoryState).registry
        config.kv_transfer_config.kv_connector = some (mp, cn) := by
      simpa [hr] using hreg
    obtain ⟨stg2, trg2, hg2, hr2, hn2, _, _⟩ :=
      get_connector_class_ok_spec env config.kv_transfer_config
        { stg with nextId := stg.nextId + 1 } mp cn m Y hreg1 hm hc
    have hcall2 : create_connector_v1 env true config role
        { stg with nextId := stg.nextId + 1 }
        = ⟨.ok ⟨st.nextId + 1, Y, config, role⟩, { stg2 with nextId := stg2.nextId + 1 },
           trg2 ++ [.logInfo Y.name config.kv_transfer_config.engine_id,
                    .construct Y.name (st.nextId + 1)]⟩ := by
      have : stg2.nextId = st.nextId + 1 := by simp [hn2, hn]
      simp [create_connector_v1, hg2, hv1, this]
    refine ⟨_, _, _, _, hcall1, hcall2, by simp, by simp, by simp⟩

theorem create_v1_fresh_instances_witness :
    let stR : FactoryState :=
      ⟨[("SharedStorageConnector", ("mod.shared", "SharedStorageConnector"))], [], 0⟩
    let env : PyEnv :=
      ⟨[("mod.shared",
         ⟨[("SharedStorageConnector", ⟨"SharedStorageConnector", false, true⟩)]⟩)]⟩
    let cfg : VllmConfig := ⟨⟨"SharedStorageConnector", none, "engA"⟩⟩
    (∀ u inst st2 tr,
       create_connector_v1 env u cfg .worker stR = ⟨.ok inst, st2, tr⟩ →
       inst.cls.isKVConnectorBase_V1 = true ∧ inst.config = cfg
         ∧ inst.role = .worker)
    ∧ ∃ st1 tr1 st2 tr2,
        create_connector_v1 env true cfg .worker stR
          = ⟨.ok ⟨0, ⟨"SharedStorageConnector", false, true⟩, cfg, .worker⟩, st1, tr1⟩
        ∧ create_connector_v1 env true cfg .worker st1
          = ⟨.ok ⟨1, ⟨"SharedStorageConnector", false, true⟩, cfg, .worker⟩, st2, tr2⟩
        ∧ (ConnectorInstanceV1.mk 0 ⟨"SharedStorageConnector", false, true⟩ cfg .worker)
            ≠ ⟨1, ⟨"SharedStorageConnector", false, true⟩, cfg, .worker⟩
        ∧ Event.construct "SharedStorageConnector" 0 ∈ tr1
        ∧ Event.construct "SharedStorageConnector" 1 ∈ tr2 :=
  create_v1_fresh_instances
    ⟨[("mod.shared",
       ⟨[("SharedStorageConnector", ⟨"SharedStorageConnector", false, true⟩)]⟩)]⟩
    ⟨⟨"SharedStorageConnector", none, "engA"⟩⟩ .worker
    ⟨[("SharedStorageConnector", ("mod.shared", "SharedStorageConnector"))], [], 0⟩
    "mod.shared" "SharedStorageConnector"
    ⟨[("SharedStorageConnector", ⟨"SharedStorageConnector", false, true⟩)]⟩
    ⟨"SharedStorageConnector", false, true⟩
    (by decide) (by decide) (by decide) (by decide)

/-- Claim C5 counterexample: the registry stores the loader, not its
result, so `get_connector_class` re-runs the loader (including its
`getattr` attribute lookup) on every resolution of the same name: with
`"A"` registered, both the first and the second resolution invoke the
loader and perform the attribute lookup, refuting "the loader's
resolution step executes at most once per name across all resolutions". -/
theorem loader_reruns_every_resolution_counterexample :
    let env : PyEnv := ⟨[("m", ⟨[("C", ⟨"C", false, true⟩)]⟩)]⟩
    let cfg : KVTransferConfig := ⟨"A", none, "e"⟩
    let st0 : FactoryState := ⟨[("A", ("m", "C"))], [], 0⟩
    let r1 := get_connector_class env cfg st0
    let r2 := get_connector_class env cfg r1.st
    Event.loaderCall "A" ∈ r1.trace ∧ Event.getattrExec "m" "C" ∈ r1.trace
    ∧ Event.loaderCall "A" ∈ r2.trace ∧ Event.getattrExec "m" "C" ∈ r2.trace := by
  decide

/-- Claim C5 (amended): repeated `get_connector_class` calls on a
registered name return the same class, and the side-effecting part of
resolution — the module's top-level execution — runs at most once per
module path thanks to the import cache: a second resolution leaves the
state unchanged and re-runs only the loader's cheap cached-import plus
attribute lookup, with no `importExec` effect. -/
theorem resolution_stable_import_once (env : PyEnv) (cfg : KVTransferConfig)
    (st : FactoryState) (mp cn : String) (m : PyModule) (Y : PyClass)
    (hreg : assocFind st.registry cfg.kv_connector = some (mp, cn))
    (hm : env.find mp = some m) (hc : m.getattr cn = some Y) :
    ∃ st1 tr1,
      get_connector_class env cfg st = ⟨.ok Y, st1, tr1⟩
      ∧ get_connector_class env cfg st1
          = ⟨.ok Y, st1, [.loaderCall cfg.kv_connector, .getattrExec mp cn]⟩
      ∧ ∀ p, Event.importExec p
          ∉ [Event.loaderCall cfg.kv_connector, Event.getattrExec mp cn] := by
  obtain ⟨st1, tr1, hg, hr, _, hmem, _⟩ :=
    get_connector_class_ok_spec env cfg st mp cn m Y hreg hm hc
  have hreg1 : assocFind st1.registry cfg.kv_connector = some (mp, cn) := by
    rw [hr]; exact hreg
  obtain ⟨st2, tr2, hg2, _, _, _, hcase2⟩ :=
    get_connector_class_ok_spec env cfg st1 mp cn m Y hreg1 hm hc
  rw [if_pos hmem] at hcase2
  obtain ⟨hst2, htr2⟩ := hcase2
  rw [hst2, htr2] at hg2
  exact ⟨st1, tr1, hg, hg2, by simp⟩

theorem resolution_stable_import_once_witness :
    let env : PyEnv := ⟨[("m", ⟨[("C", ⟨"C", false, true⟩)]⟩)]⟩
    let cfg : KVTransferConfig := ⟨"A", none, "e"⟩
    let st0 : FactoryState := ⟨[("A", ("m", "C"))], [], 0⟩
    ∃ st1 tr1,
      get_connector_class env cfg st0 = ⟨.ok ⟨"C", false, true⟩, st1, tr1⟩
      ∧ get_connector_class env cfg st1
          = ⟨.ok ⟨"C", false, true⟩, st1, [.loaderCall cfg.kv_connector, .getattrExec "m" "C"]⟩
      ∧ ∀ p, Event.importExec p
          ∉ [Event.loaderCall cfg.kv_connector, Event.getattrExec "m" "C"] :=
  resolution_stable_import_once
    ⟨[("m", ⟨[("C", ⟨"C", false, true⟩)]⟩)]⟩ ⟨"A", none, "e"⟩
    ⟨[("A", ("m", "C"))], [], 0⟩ "m" "C"
    ⟨[("C", ⟨"C", false, true⟩)]⟩ ⟨"C", false, true⟩
    (by decide) (by decide) (by decide)

/-- Claim C6: `register_connector` performs no import and no side effect
beyond the registry entry — empty trace, import cache and allocation
counter untouched — and the backend module's import happens only later,
at the first resolution of the registered name. -/
theorem register_no_side_effects_deferred_import (env : PyEnv)
    (name mp cn : String) (st : FactoryState) :
    (register_connector name mp cn st).trace = []
    ∧ (register_connector name mp cn st).st.loadedModules = st.loadedModules
    ∧ (register_connector name mp cn st).st.nextId = st.nextId
    ∧ (assocFind st.registry name = none →
        register_connector name mp cn st
          = ⟨.ok (), { st with registry := st.registry ++ [(name, (mp, cn))] }, []⟩
        ∧ ∀ m : PyModule, env.find mp = some m → mp ∉ st.loadedModules →
            ∀ eid, Event.importExec mp ∈
              (get_connector_class env ⟨name, none, eid⟩
                 { st with registry := st.registry ++ [(name, (mp, cn))] }).trace) := by
  refine ⟨?_, ?_, ?_, ?_⟩
  · unfold register_connector
    split <;> rfl
  · unfold register_connector
    split <;> rfl
  · unfold register_connector
    split <;> rfl
  · intro hmiss
    refine ⟨by simp [register_connector, hmiss], ?_⟩
    intro m hm hmem eid
    have hreg : assocFind (st.registry ++ [(name, (mp, cn))]) name = some (mp, cn) := by
      rw [assocFind_append_of_none _ hmiss]
      simp [assocFind]
    rcases hcm : m.getattr cn with _ | Y
    · have : loader env mp cn { st with registry := st.registry ++ [(name, (mp, cn))] }
          = ⟨.error (.attributeError mp cn),
             { st with registry := st.registry ++ [(name, (mp, cn))],
                       loadedModules := mp :: st.loadedModules },
             [.importExec mp, .getattrExec mp cn]⟩ := by
        simp [loader, import_module, hm, hmem, hcm]
      simp [get_connector_class, hreg, this]
    · obtain ⟨st1, tr, hl, _, _, _, hcase⟩ :=
        loader_ok_spec env mp cn { st with registry := st.registry ++ [(name, (mp, cn))] }
          m Y hm hcm
      rw [if_neg hmem] at hcase
      simp [get_connector_class, hreg, hl, hcase.2]

theorem register_no_side_effects_deferred_import_witness :
    let env : PyEnv := ⟨[("mod.nixl", ⟨[("NixlConnector", ⟨"NixlConnector", false, true⟩)]⟩)]⟩
    let st0 : FactoryState := ⟨[], [], 0⟩
    (register_connector "NixlConnector" "mod.nixl" "NixlConnector" st0).trace = []
    ∧ (register_connector "NixlConnector" "mod.nixl" "NixlConnector" st0).st.loadedModules
        = st0.loadedModules
    ∧ (register_connector "NixlConnector" "mod.nixl" "NixlConnector" st0).st.nextId = st0.nextId
    ∧ (assocFind st0.registry "NixlConnector" = none →
        register_connector "NixlConnector" "mod.nixl" "NixlConnector" st0
          = ⟨.ok (), { st0 with
              registry := st0.registry ++ [("NixlConnector", ("mod.nixl", "NixlConnector"))] }, []⟩
        ∧ ∀ m : PyModule, env.find "mod.nixl" = some m → "mod.nixl" ∉ st0.loadedModules →
            ∀ eid, Event.importExec "mod.nixl" ∈
              (get_connector_class env ⟨"NixlConnector", none, eid⟩
                 { st0 with
                   registry := st0.registry
                     ++ [("NixlConnector", ("mod.nixl", "NixlConnector"))] }).trace) :=
  register_no_side_effects_deferred_import
    ⟨[("mod.nixl", ⟨[("NixlConnector", ⟨"NixlConnector", false, true⟩)]⟩)]⟩
    "NixlConnector" "mod.nixl" "NixlConnector" ⟨[], [], 0⟩

/-- Claim C7: every successful `create_connector_v1` emits the
`logger.info` diagnostic recording the created connector's name
(`connector_cls.__name__`) and the engine id from the transfer config,
placed in the effect trace before the constructor call that produces the
returned instance. -/
theorem create_v1_logs_before_return (env : PyEnv) (u : Bool)
    (config : VllmConfig) (role : KVConnectorRole) (st : FactoryState)
    (inst : ConnectorInstanceV1) (st2 : FactoryState) (tr : List Event)
    (h : create_connector_v1 env u config role st = ⟨.ok inst, st2, tr⟩) :
    ∃ tr1, tr = tr1 ++ [.logInfo inst.cls.name config.kv_transfer_config.engine_id,
                        .construct inst.cls.name inst.instId] := by
  obtain ⟨_, _, _, _, st1, tr1, _, _, _, htr⟩ :=
    create_connector_v1_ok_shape env u config role st inst st2 tr h
  exact ⟨tr1, htr⟩

theorem create_v1_logs_before_return_witness :
    ∃ tr1,
      (create_connector_v1
        ⟨[("mod.shared",
           ⟨[("SharedStorageConnector", ⟨"SharedStorageConnector", false, true⟩)]⟩)]⟩
        true ⟨⟨"SharedStorageConnector", none, "engB"⟩⟩ .scheduler
        ⟨[("SharedStorageConnector", ("mod.shared", "SharedStorageConnector"))], [], 5⟩).trace
      = tr1 ++ [.logInfo "SharedStorageConnector" "engB",
                .construct "SharedStorageConnector" 5] :=
  create_v1_logs_before_return
    ⟨[("mod.shared",
       ⟨[("SharedStorageConnector", ⟨"SharedStorageConnector", false, true⟩)]⟩)]⟩
    true ⟨⟨"SharedStorageConnector", none, "engB"⟩⟩ .scheduler
    ⟨[("SharedStorageConnector", ("mod.shared", "SharedStorageConnector"))], [], 5⟩
    ⟨5, ⟨"SharedStorageConnector", false, true⟩,
     ⟨⟨"SharedStorageConnector", none, "engB"⟩⟩, .scheduler⟩
    ⟨[("SharedStorageConnector", ("mod.shared", "SharedStorageConnector"))],
     ["mod.shared"], 6⟩
    [.loaderCall "SharedStorageConnector", .importExec "mod.shared",
     .getattrExec "mod.shared" "SharedStorageConnector",
     .logInfo "SharedStorageConnector" "engB", .construct "SharedStorageConnector" 5]
    (by rfl)

end KVF

namespace Scoring

theorem mem_scheduleCalls {c : SCall} {ps : List TokensPrompt}
    {rps : List String} {pp rid : String} {lora : Option String}
    {th : Option (List (String × String))} {prio : Int}
    (h : c ∈ scheduleCalls ps rps pp rid lora th prio) :
    (∃ i, c = .logInputs (rid ++ "-" ++ toString i) (rps.getD i ""))
    ∨ ∃ i p, (i, p) ∈ ps.enum
        ∧ c = .encode p pp (rid ++ "-" ++ toString i) lora th prio := by
  simp only [scheduleCalls, List.mem_flatMap, List.mem_cons,
    List.mem_singleton, List.not_mem_nil, or_false] at h
  obtain ⟨q, hq, hc | hc⟩ := h
  · exact .inl ⟨q.1, hc⟩
  · exact .inr ⟨q.1, q.2, by simpa using hq, hc⟩

/-- Claim C8: in the collaborator-call trace of a scoring/rerank run,
every call on the engine client is either the single tokenizer fetch or
an `encode` carrying exactly the prompt, the pooling params, a per-item
request id `f"{request_id}-{i}"`, the LoRA request, the trace headers and
the priority; nothing in the trace touches the KV-connector subsystem. -/
theorem engine_calls_are_encode_only (me : ModelEnv) (ice : Bool)
    (pp rid : String) (lora : Option String)
    (th : Option (List (String × String))) (prio : Int)
    (d1 d2 : List String) (c : SCall)
    (hc : c ∈ (run_scoring me ice pp rid lora th prio d1 d2).1) :
    c.isKvConnectorOp = false
    ∧ (c.isEngineClientCall = true →
        c = .getTokenizer lora
        ∨ ∃ (i : Nat) (p : TokensPrompt), c = .encode p pp (rid ++ "-" ++ toString i) lora th prio) := by
  have hsched : ∀ (ps : List TokensPrompt) (rps : List String),
      c ∈ scheduleCalls ps rps pp rid lora th prio →
      c.isKvConnectorOp = false
      ∧ (c.isEngineClientCall = true →
          c = .getTokenizer lora
          ∨ ∃ (i : Nat) (p : TokensPrompt), c = .encode p pp (rid ++ "-" ++ toString i) lora th prio) := by
    intro ps rps h
    rcases mem_scheduleCalls h with ⟨i, hc'⟩ | ⟨i, p, _, hc'⟩
    · subst hc'
      exact ⟨rfl, by intro h'; simp [SCall.isEngineClientCall] at h'⟩
    · subst hc'
      exact ⟨rfl, fun _ => .inr ⟨i, p, rfl⟩⟩
  simp only [run_scoring, List.mem_cons] at hc
  rcases hc with hc | hc
  · subst hc
    exact ⟨rfl, fun _ => .inl rfl⟩
  · cases ice with
    | true =>
      simp only [if_true, cross_encoding_score, List.append_eq,
        List.mem_append, List.mem_map] at hc
      rcases hc with ⟨p, _, hc'⟩ | hc
      · by_cases hup : me.use_pad_token = true <;> simp only [hup] at hc' <;>
          rw [← hc'] <;>
          exact ⟨by simp [SCall.isKvConnectorOp],
                 by intro h'; simp [SCall.isEngineClientCall] at h'⟩
      · exact hsched _ _ hc
    | false =>
      simp only [Bool.false_eq_true, if_false, embedding_score,
        List.append_eq, List.mem_append, List.mem_map] at hc
      rcases hc with ⟨t, _, hc'⟩ | hc
      · rw [← hc']
        exact ⟨rfl, by intro h'; simp [SCall.isEngineClientCall] at h'⟩
      · exact hsched _ _ hc

theorem engine_calls_are_encode_only_witness :
    (SCall.encode ⟨[1, 2], some [0, 1]⟩ "pp" ("rid" ++ "-" ++ toString (0 : Nat))
        none none 3
      ∈ (run_scoring meFix true "pp" "rid" none none 3 ["q"] ["d1", "d2"]).1)
    ∧ (SCall.encode ⟨[1, 2], some [0, 1]⟩ "pp" ("rid" ++ "-" ++ toString (0 : Nat))
        none none 3).isKvConnectorOp = false
    ∧ ((SCall.encode ⟨[1, 2], some [0, 1]⟩ "pp" ("rid" ++ "-" ++ toString (0 : Nat))
        none none 3).isEngineClientCall = true →
        SCall.encode ⟨[1, 2], some [0, 1]⟩ "pp" ("rid" ++ "-" ++ toString (0 : Nat))
          none none 3 = .getTokenizer none
        ∨ ∃ (i : Nat) (p : TokensPrompt), SCall.encode ⟨[1, 2], some [0, 1]⟩ "pp"
            ("rid" ++ "-" ++ toString (0 : Nat)) none none 3
            = .encode p "pp" ("rid" ++ "-" ++ toString i) none none 3) :=
  ⟨by decide,
   (engine_calls_are_encode_only meFix true "pp" "rid" none none 3
      ["q"] ["d1", "d2"] _ (by decide)).1,
   (engine_calls_are_encode_only meFix true "pp" "rid" none none 3
      ["q"] ["d1", "d2"] _ (by decide)).2⟩

end Scoring

namespace Scoring

theorem pyListMul_singleton {α : Type} (a : α) (n : Nat) :
    pyListMul [a] n = List.replicate n a := by
  induction n with
  | zero => rfl
  | succ n ih =>
    simp only [pyListMul, List.replicate_succ, List.flatten_cons] at ih ⊢
    simp [ih]

theorem zipWith_replicate_left {α β γ : Type} (f : α → β → γ) (a : α)
    (l : List β) (n : Nat) (h : l.length ≤ n) :
    List.zipWith f (List.replicate n a) l = l.map (f a) := by
  induction l generalizing n with
  | nil => simp
  | cons b t ih =>
    cases n with
    | zero => simp at h
    | succ n =>
      simp only [List.replicate_succ, List.zipWith_cons_cons, List.map_cons]
      exact congrArg _ (ih n (by simpa using h))

theorem zip_replicate_left {α β : Type} (a : α) (l : List β) (n : Nat)
    (h : l.length ≤ n) :
    (List.replicate n a).zip l = l.map (fun b => (a, b)) := by
  induction l generalizing n with
  | nil => simp
  | cons b t ih =>
    cases n with
    | zero => simp at h
    | succ n =>
      simp only [List.replicate_succ, List.zip_cons_cons, List.map_cons]
      exact congrArg _ (ih n (by simpa using h))

theorem encodeCount_append (a b : List SCall) :
    encodeCount (a ++ b) = encodeCount a + encodeCount b := by
  simp [encodeCount, List.filter_append]

theorem encodeCount_map_eq_zero {α : Type} (f : α → SCall) (l : List α)
    (h : ∀ a, (f a).isEncode = false) : encodeCount (l.map f) = 0 := by
  induction l with
  | nil => rfl
  | cons a t ih =>
    simp only [List.map_cons, encodeCount, List.filter_cons, h a] at ih ⊢
    simpa using ih

theorem encodeCount_scheduleCalls (ps : List TokensPrompt)
    (rps : List String) (pp rid : String) (lora : Option String)
    (th : Option (List (String × String))) (prio : Int) :
    encodeCount (scheduleCalls ps rps pp rid lora th prio) = ps.length := by
  have hgen : ∀ l : List (Nat × TokensPrompt),
      encodeCount (l.flatMap (fun p =>
        [SCall.logInputs (rid ++ "-" ++ toString p.1) (rps.getD p.1 ""),
         SCall.encode p.2 pp (rid ++ "-" ++ toString p.1) lora th prio]))
        = l.length := by
    intro l
    induction l with
    | nil => rfl
    | cons a t ih =>
      rw [List.flatMap_cons, encodeCount_append, ih]
      have h2 : encodeCount
          [SCall.logInputs (rid ++ "-" ++ toString a.1) (rps.getD a.1 ""),
           SCall.encode a.2 pp (rid ++ "-" ++ toString a.1) lora th prio] = 1 := rfl
      rw [h2, List.length_cons, Nat.add_comm]
  simpa [scheduleCalls, List.enum_length] using hgen ps.enum

/-- Claim C9: when the first input list is the singleton `[x]` and the
second has `n ≥ 1` elements, both scoring paths produce exactly `n`
results, the `i`-th pairing `x` with the `i`-th second input; the
embedding path encodes `x` once and broadcasts its embedding over the
pairs (`1 + n` engine calls), while the cross-encoder path builds and
encodes one joint prompt per pair (`n` engine calls, each containing
`x`). -/
theorem one_to_many_broadcast (me : ModelEnv) (pp rid : String)
    (lora : Option String) (th : Option (List (String × String)))
    (prio : Int) (x : String) (ys : List String) (hn : 1 ≤ ys.length) :
    (embedding_score me pp rid lora th prio [x] ys).2
      = ys.map (fun y => me.cos (me.embed (embeddingPromptOf me x))
                                (me.embed (embeddingPromptOf me y)))
    ∧ encodeCount (embedding_score me pp rid lora th prio [x] ys).1
        = 1 + ys.length
    ∧ (cross_encoding_score me pp rid lora th prio [x] ys).2
        = ys.map (fun y => me.score (crossPromptOf me x y))
    ∧ encodeCount (cross_encoding_score me pp rid lora th prio [x] ys).1
        = ys.length := by
  have hpairs : (pyListMul [x] ys.length).zip ys
      = ys.map (fun y => (x, y)) := by
    rw [pyListMul_singleton]
    exact zip_replicate_left x ys ys.length le_rfl
  refine ⟨?_, ?_, ?_, ?_⟩
  · simp only [embedding_score, cosineSimilarity, List.singleton_append,
      List.map_cons, List.length_singleton, List.take_succ_cons,
      List.take_zero, List.drop_succ_cons, List.drop_zero, List.length_cons,
      List.length_nil, List.length_map]
    simp only [if_true]
    rw [pyListMul_singleton, zipWith_replicate_left _ _ _ _ (by simp)]
    simp [Function.comp]
  · have htr : (embedding_score me pp rid lora th prio [x] ys).1
        = ((x :: ys).map SCall.tokenize)
          ++ scheduleCalls ((x :: ys).map (embeddingPromptOf me)) (x :: ys)
               pp rid lora th prio := rfl
    rw [htr, encodeCount_append, encodeCount_scheduleCalls,
      encodeCount_map_eq_zero SCall.tokenize (x :: ys) (fun a => rfl)]
    simp [Nat.add_comm]
  · have hres : (cross_encoding_score me pp rid lora th prio [x] ys).2
        = (((pyListMul [x] ys.length).zip ys).map
            (fun p => crossPromptOf me p.1 p.2)).map me.score := rfl
    rw [hres, hpairs]
    simp [Function.comp]
  · have htr : (cross_encoding_score me pp rid lora th prio [x] ys).1
        = (((pyListMul [x] ys.length).zip ys).map (fun p =>
             if me.use_pad_token then SCall.tokenizePair p.1 p.2
             else SCall.tokenize (p.1 ++ p.2)))
          ++ scheduleCalls
               (((pyListMul [x] ys.length).zip ys).map
                 (fun p => crossPromptOf me p.1 p.2))
               (((pyListMul [x] ys.length).zip ys).map
                 (fun p => p.1 ++ crossSep me ++ p.2))
               pp rid lora th prio := rfl
    rw [htr, encodeCount_append, encodeCount_scheduleCalls,
      encodeCount_map_eq_zero _ _ (fun a => by
        by_cases hup : me.use_pad_token = true <;> simp [hup, SCall.isEncode])]
    simp [hpairs]

theorem one_to_many_broadcast_witness :
    (embedding_score meFix "pp" "rid" none none 0 ["q"] ["a", "bb"]).2
      = ["a", "bb"].map (fun y => meFix.cos
          (meFix.embed (embeddingPromptOf meFix "q"))
          (meFix.embed (embeddingPromptOf meFix y)))
    ∧ encodeCount (embedding_score meFix "pp" "rid" none none 0 ["q"] ["a", "bb"]).1
        = 1 + (["a", "bb"] : List String).length
    ∧ (cross_encoding_score meFix "pp" "rid" none none 0 ["q"] ["a", "bb"]).2
        = ["a", "bb"].map (fun y => meFix.score (crossPromptOf meFix "q" y))
    ∧ encodeCount (cross_encoding_score meFix "pp" "rid" none none 0 ["q"] ["a", "bb"]).1
        = (["a", "bb"] : List String).length :=
  one_to_many_broadcast meFix "pp" "rid" none none 0 "q" ["a", "bb"] (by decide)

end Scoring

namespace Scoring

theorem rerankLe_trans (a b c : RerankResult) (hab : rerankLe a b = true)
    (hbc : rerankLe b c = true) : rerankLe a c = true := by
  simp only [rerankLe, decide_eq_true_eq] at hab hbc ⊢
  exact le_trans hbc hab

theorem rerankLe_total (a b : RerankResult) :
    (rerankLe a b || rerankLe b a) = true := by
  simp only [rerankLe, Bool.or_eq_true, decide_eq_true_eq]
  exact le_total b.relevance_score a.relevance_score

theorem mem_rerankItems {documents : List String}
    {batch : List PoolingRequestOutput} {r : RerankResult}
    (hr : r ∈ rerankItems documents batch) :
    r.index < batch.length
    ∧ r.relevance_score = (batch.getD r.index ⟨[], 0⟩).score
    ∧ r.document = documents.getD r.index "" := by
  simp only [rerankItems, List.mem_map] at hr
  obtain ⟨p, hp, hrp⟩ := hr
  rw [List.mem_enum_iff_getElem?] at hp
  have hlt : p.1 < batch.length := (List.getElem?_eq_some.mp hp).1
  have hgd : batch.getD p.1 ⟨[], 0⟩ = p.2 := by
    simp [List.getD_eq_getElem?_getD, hp]
  subst hrp
  refine ⟨hlt, ?_, rfl⟩
  show p.2.score = (batch.getD p.1 ⟨[], 0⟩).score
  rw [hgd]

theorem length_rerankItems (documents : List String)
    (batch : List PoolingRequestOutput) :
    (rerankItems documents batch).length = batch.length := by
  simp [rerankItems, List.enum_length]

/-- Claim C10: a rerank response is sorted by `relevance_score` in
non-increasing order; each entry's `index` is the document's original
position, assigned before sorting; a positive `top_n` smaller than the
document count truncates to the `top_n` highest-scoring entries, while
`top_n ≤ 0` defaults to the document count so nothing is truncated; and
`usage.total_tokens` sums the prompt token counts over all scored
documents regardless of truncation. -/
theorem rerank_response_spec (request_top_n : Int) (documents : List String)
    (batch : List PoolingRequestOutput)
    (hlen : batch.length = documents.length) :
    (do_rerank_response request_top_n documents batch).results.Pairwise
        (fun a b => b.relevance_score ≤ a.relevance_score)
    ∧ (∀ r ∈ (do_rerank_response request_top_n documents batch).results,
        r.index < batch.length
        ∧ r.relevance_score = (batch.getD r.index ⟨[], 0⟩).score
        ∧ r.document = documents.getD r.index "")
    ∧ (0 < request_top_n → request_top_n < (documents.length : Int) →
        (do_rerank_response request_top_n documents batch).results.length
            = request_top_n.toNat
        ∧ ∃ dropped,
            (∀ a ∈ (do_rerank_response request_top_n documents batch).results,
              ∀ b ∈ dropped, b.relevance_score ≤ a.relevance_score)
            ∧ ((do_rerank_response request_top_n documents batch).results
                ++ dropped).Perm (rerankItems documents batch))
    ∧ (request_top_n ≤ 0 →
        (do_rerank_response request_top_n documents batch).results.length
          = documents.length)
    ∧ (do_rerank_response request_top_n documents batch).total_tokens
        = (batch.map (fun r => r.prompt_token_ids.length)).sum := by
  have hsorted := List.sorted_mergeSort rerankLe_trans rerankLe_total
    (rerankItems documents batch)
  have hperm := List.mergeSort_perm (rerankItems documents batch) rerankLe
  have hslen : ((rerankItems documents batch).mergeSort rerankLe).length
      = batch.length := by
    rw [List.length_mergeSort, length_rerankItems]
  have hresults : (do_rerank_response request_top_n documents batch).results
      = if rerankTopN request_top_n documents.length < (documents.length : Int)
        then ((rerankItems documents batch).mergeSort rerankLe).take
               (rerankTopN request_top_n documents.length).toNat
        else (rerankItems documents batch).mergeSort rerankLe := rfl
  have hsub : (do_rerank_response request_top_n documents batch).results.Sublist
      ((rerankItems documents batch).mergeSort rerankLe) := by
    rw [hresults]
    split
    · exact List.take_sublist _ _
    · exact List.Sublist.refl _
  refine ⟨?_, ?_, ?_, ?_, rfl⟩
  · exact List.Pairwise.sublist hsub
      (hsorted.imp (fun h => by simpa [rerankLe] using h))
  · intro r hr
    exact mem_rerankItems (hperm.subset (hsub.subset hr))
  · intro h1 h2
    have htn : rerankTopN request_top_n documents.length = request_top_n := by
      simp [rerankTopN, h1]
    have hcond : rerankTopN request_top_n documents.length
        < (documents.length : Int) := by rw [htn]; exact h2
    have hres3 : (do_rerank_response request_top_n documents batch).results
        = ((rerankItems documents batch).mergeSort rerankLe).take
            request_top_n.toNat := by
      rw [hresults, if_pos hcond, htn]
    have hle : request_top_n.toNat ≤ batch.length := by
      rw [hlen]
      exact Int.toNat_le.mpr (le_of_lt h2)
    constructor
    · rw [hres3, List.length_take, hslen, Nat.min_eq_left hle]
    · refine ⟨((rerankItems documents batch).mergeSort rerankLe).drop
        request_top_n.toNat, ?_, ?_⟩
      · have hsorted2 : (((rerankItems documents batch).mergeSort rerankLe).take
              request_top_n.toNat
            ++ ((rerankItems documents batch).mergeSort rerankLe).drop
              request_top_n.toNat).Pairwise
            (fun a b => rerankLe a b = true) := by
          rw [List.take_append_drop]
          exact hsorted
        have hcross := (List.pairwise_append.mp hsorted2).2.2
        intro a ha b hb
        rw [hres3] at ha
        have := hcross a ha b hb
        simpa [rerankLe] using this
      · rw [hres3, List.take_append_drop]
        exact hperm
  · intro h0
    have htn : rerankTopN request_top_n documents.length
        = (documents.length : Int) := by
      simp only [rerankTopN]
      rw [if_neg (by omega)]
    have hres4 : (do_rerank_response request_top_n documents batch).results
        = (rerankItems documents batch).mergeSort rerankLe := by
      rw [hresults, htn, if_neg (lt_irrefl _)]
    rw [hres4, hslen, hlen]

theorem rerank_response_spec_witness :
    (do_rerank_response 2 ["d0", "d1", "d2"]
        [⟨[1], 5⟩, ⟨[1, 2], 9⟩, ⟨[1], 1⟩]).results.Pairwise
        (fun a b => b.relevance_score ≤ a.relevance_score)
    ∧ (∀ r ∈ (do_rerank_response 2 ["d0", "d1", "d2"]
          [⟨[1], 5⟩, ⟨[1, 2], 9⟩, ⟨[1], 1⟩]).results,
        r.index < ([⟨[1], 5⟩, ⟨[1, 2], 9⟩, ⟨[1], 1⟩] : List PoolingRequestOutput).length
        ∧ r.relevance_score
            = (([⟨[1], 5⟩, ⟨[1, 2], 9⟩, ⟨[1], 1⟩] : List PoolingRequestOutput).getD
                r.index ⟨[], 0⟩).score
        ∧ r.document = (["d0", "d1", "d2"] : List String).getD r.index "")
    ∧ (0 < (2 : Int) → (2 : Int) < ((["d0", "d1", "d2"] : List String).length : Int) →
        (do_rerank_response 2 ["d0", "d1", "d2"]
            [⟨[1], 5⟩, ⟨[1, 2], 9⟩, ⟨[1], 1⟩]).results.length = (2 : Int).toNat
        ∧ ∃ dropped,
            (∀ a ∈ (do_rerank_response 2 ["d0", "d1", "d2"]
                [⟨[1], 5⟩, ⟨[1, 2], 9⟩, ⟨[1], 1⟩]).results,
              ∀ b ∈ dropped, b.relevance_score ≤ a.relevance_score)
            ∧ ((do_rerank_response 2 ["d0", "d1", "d2"]
                  [⟨[1], 5⟩, ⟨[1, 2], 9⟩, ⟨[1], 1⟩]).results
                ++ dropped).Perm
               (rerankItems ["d0", "d1", "d2"] [⟨[1], 5⟩, ⟨[1, 2], 9⟩, ⟨[1], 1⟩]))
    ∧ ((2 : Int) ≤ 0 →
        (do_rerank_response 2 ["d0", "d1", "d2"]
            [⟨[1], 5⟩, ⟨[1, 2], 9⟩, ⟨[1], 1⟩]).results.length
          = (["d0", "d1", "d2"] : List String).length)
    ∧ (do_rerank_response 2 ["d0", "d1", "d2"]
          [⟨[1], 5⟩, ⟨[1, 2], 9⟩, ⟨[1], 1⟩]).total_tokens
        = (([⟨[1], 5⟩, ⟨[1, 2], 9⟩, ⟨[1], 1⟩] : List PoolingRequestOutput).map
            (fun r => r.prompt_token_ids.length)).sum :=
  rerank_response_spec 2 ["d0", "d1", "d2"] [⟨[1], 5⟩, ⟨[1, 2], 9⟩, ⟨[1], 1⟩] rfl

end Scoring
